import Mathlib

/-!
Shallow embedding of the RhinoAI enhanced NLP pipeline.

The repository renders a C# implementation as template strings:
`src/Resources/script_1.py` holds `EnhancedNLPProcessor` (pipeline controller,
AI orchestration, retrying command execution) and `src/Resources/script_2.py`
holds the supporting classes (`IntentClassifier`, `ParameterExtractor`,
`SemanticValidator`, `ConversationContext`, result types, cache entries).

Modelling conventions:
- C# `double` is modelled by `ℚ` (the constants involved are decimal literals
  and the claims are about control flow and exact comparisons);
- C# `DateTime` instants are modelled by `ℕ` (minutes);
- dictionaries are modelled by functions `String → Option Value`;
- `async` methods are modelled as pure functions; a thrown exception is
  modelled by `Except.error`;
- external collaborators (Rhino document, AI provider transports, the JSON
  recovery parser) are oracle parameters;
- the .NET regular expressions used by `ParameterExtractor` are embedded as
  explicit character-list matchers with leftmost-match search.

Classes referenced by the rendered source but not present in it
(`FallbackHandler`, `RobustJsonParser`, `GenerateCacheKey`,
`ProcessComplexOperation`, `ProcessQuery`, `ProcessModification`,
`CreateEnhancedBox`, `CreateEnhancedCylinder`) are modelled from the spec or
taken as oracle parameters; each such definition is marked in its
doc comment.
-/

set_option allowUnsafeReducibility true in
attribute [semireducible] Rat.add Rat.mul Rat.sub Rat.inv Rat.ofScientific

namespace RhinoAI

/-! ## String utilities -/

/-- Substring test on character lists: `listHasInfix needle hay` is true iff
`needle` occurs contiguously in `hay` (the semantics of C# `string.Contains`). -/
def listHasInfix (needle : List Char) : List Char → Bool
  | [] => needle.isEmpty
  | c :: rest => needle.isPrefixOf (c :: rest) || listHasInfix needle rest

/-- Kernel-computable rendering of `ToLowerInvariant`: lowercase each character. -/
def strToLower (s : String) : String := String.mk (s.data.map Char.toLower)

/-- C# `s.Contains(sub)` (ordinal, case-sensitive). -/
def strContains (s sub : String) : Bool := listHasInfix sub.data s.data

/-- C# `s.Contains(sub, StringComparison.OrdinalIgnoreCase)`. -/
def strContainsCI (s sub : String) : Bool := strContains (strToLower s) (strToLower sub)

/-- C# `string.IsNullOrWhiteSpace` for a non-null string: empty or all whitespace. -/
def isNullOrWhiteSpace (s : String) : Bool := s.data.all Char.isWhitespace

/-! ## Character-list pattern matchers (embedding the .NET regexes) -/

/-- Match a literal case-insensitively (the literal is given in lowercase);
returns the remainder on success. Embeds a `RegexOptions.IgnoreCase` literal. -/
def matchCI : List Char → List Char → Option (List Char)
  | [], cs => some cs
  | _ :: _, [] => none
  | l :: ls, c :: cs => if c.toLower = l then matchCI ls cs else none

/-- Match a literal case-sensitively; returns the remainder on success. -/
def matchCS : List Char → List Char → Option (List Char)
  | [], cs => some cs
  | _ :: _, [] => none
  | l :: ls, c :: cs => if c = l then matchCS ls cs else none

/-- Regex `\s+`: require at least one whitespace character, skip the run. -/
def ws1 (cs : List Char) : Option (List Char) :=
  let sp := cs.span Char.isWhitespace
  if sp.1.isEmpty then none else some sp.2

/-- Regex `\s*`: skip any whitespace run. -/
def wsAny (cs : List Char) : List Char := (cs.span Char.isWhitespace).2

/-- Numeric value of a digit run. -/
def digitsToNat (ds : List Char) : ℕ :=
  ds.foldl (fun a c => a * 10 + (c.toNat - 48)) 0

/-- Regex `\d+(?:\.\d+)?` at the head of the list: greedy digits, then an
optional fraction part; the captured numeral parsed by `double.TryParse`. -/
def matchNumber (cs : List Char) : Option (ℚ × List Char) :=
  let sp := cs.span Char.isDigit
  if sp.1.isEmpty then none
  else
    let ip : ℚ := (digitsToNat sp.1 : ℚ)
    match sp.2 with
    | '.' :: rest2 =>
      let fp := rest2.span Char.isDigit
      if fp.1.isEmpty then some (ip, sp.2)
      else some (ip + (digitsToNat fp.1 : ℚ) / ((10 : ℚ) ^ fp.1.length), fp.2)
    | _ => some (ip, sp.2)

/-- Regex `-?\d+(?:\.\d+)?` at the head of the list. -/
def matchSignedNumber (cs : List Char) : Option (ℚ × List Char) :=
  match cs with
  | '-' :: rest => (matchNumber rest).map (fun p => (-p.1, p.2))
  | _ => matchNumber cs

/-- Leftmost-match search: try the matcher at every start position, earliest
position first (the semantics of `Regex.Match`). -/
def searchPos {α : Type} (f : List Char → Option α) : List Char → Option α
  | [] => f []
  | c :: cs =>
    match f (c :: cs) with
    | some v => some v
    | none => searchPos f cs

/-! ## Core data model (script_2.py, data classes) -/

/-- `IntentCategory` enum. -/
inductive IntentCategory where
  | directCommand
  | complexOperation
  | query
  | modification
  | unknown
deriving DecidableEq, Repr

/-- `ProcessingResultType` enum (`Partial` is rendered as `partialK`). -/
inductive ResultType where
  | success
  | error
  | warning
  | partialK
deriving DecidableEq, Repr

/-- `ProcessingResult`: the sole result type crossing the pipeline boundary.
Null string members are rendered as `""`. -/
structure ProcessingResult where
  isSuccess : Bool
  message : String
  errorMessage : String
  type : ResultType
deriving DecidableEq, Repr

/-- `ProcessingResult.Success`. -/
def ProcessingResult.mkSuccess (m : String) : ProcessingResult :=
  ⟨true, m, "", ResultType.success⟩

/-- `ProcessingResult.Error`. -/
def ProcessingResult.mkError (e : String) : ProcessingResult :=
  ⟨false, "", e, ResultType.error⟩

/-- `ProcessingResult.Warning`. -/
def ProcessingResult.mkWarning (m : String) : ProcessingResult :=
  ⟨true, m, "", ResultType.warning⟩

/-- `ProcessingResult.Partial`. -/
def ProcessingResult.mkPartialK (m : String) : ProcessingResult :=
  ⟨true, m, "", ResultType.partialK⟩

/-- `ValidationResult`. -/
structure ValidationResult where
  isValid : Bool
  errorMessage : String
deriving DecidableEq, Repr

/-- `ValidationResult.Valid()`. -/
def ValidationResult.validR : ValidationResult := ⟨true, ""⟩

/-- `ValidationResult.Invalid(message)`. -/
def ValidationResult.invalidR (m : String) : ValidationResult := ⟨false, m⟩

/-- `Rhino.Geometry.Point3d` over exact rationals. -/
structure Point3d where
  x : ℚ
  y : ℚ
  z : ℚ
deriving DecidableEq, Repr

/-- `Point3d.Origin`. -/
def Point3d.origin : Point3d := ⟨0, 0, 0⟩

/-- `Rhino.Geometry.Vector3d` over exact rationals. -/
structure Vector3d where
  x : ℚ
  y : ℚ
  z : ℚ
deriving DecidableEq, Repr

/-- `Point3d + Vector3d`. -/
def Point3d.addVec (p : Point3d) (v : Vector3d) : Point3d :=
  ⟨p.x + v.x, p.y + v.y, p.z + v.z⟩

/-- The typed values stored in a parameter dictionary (`Dictionary<string, object>`):
boxed doubles, ints, strings, points and vectors. -/
inductive Value where
  | vdouble : ℚ → Value
  | vint : ℤ → Value
  | vstr : String → Value
  | vpoint : Point3d → Value
  | vvec : Vector3d → Value
deriving DecidableEq, Repr

/-- A parameter dictionary, keyed by parameter name. -/
def Params : Type := String → Option Value

/-- Dictionary insert / overwrite. -/
def paramsInsert (m : Params) (k : String) (v : Value) : Params :=
  fun q => if q = k then some v else m q

/-- The empty dictionary. -/
def emptyParams : Params := fun _ => none

/-- `CreatedObject`: recorded into the context after a successful creation. -/
structure CreatedObject where
  id : ℕ
  objType : String
  parameters : Params
  position : Point3d

/-- `ConversationContext` (session-scoped state read by downstream components). -/
structure ConversationContext where
  recentOperations : List String
  activeLayer : String
  selectedObjects : List ℕ
  sceneDescription : String
  lastCreatedObject : Option CreatedObject

/-- A fresh `new ConversationContext()`. -/
def defaultContext : ConversationContext :=
  ⟨[], "", [], "", none⟩

/-- `ConversationContext.GetRelevanceScore`: the source returns the constant
`0.1` ("Simplified implementation"), independent of the category and of the
recent-operation history. -/
def ConversationContext.getRelevanceScore (_c : ConversationContext)
    (_category : IntentCategory) : ℚ := 1/10

/-- `CommandTemplate`. -/
structure CommandTemplate where
  commandName : String
  parameters : List String
  description : String
  keywords : List String
deriving DecidableEq, Repr

/-- `IntentPattern`. -/
structure IntentPattern where
  category : IntentCategory
  keywords : List String
  template : CommandTemplate
deriving DecidableEq, Repr

/-- `IntentResult`; a null `CommandTemplate` is `none`. -/
structure IntentResult where
  category : IntentCategory
  template : Option CommandTemplate
  confidence : ℚ
  keywords : List String
deriving DecidableEq, Repr

/-- `new IntentResult { Confidence = 0.0 }`: default enum value and null template. -/
def initIntentResult : IntentResult :=
  ⟨IntentCategory.directCommand, none, 0, []⟩

/-! ## Intent classifier (script_2.py, `IntentClassifier`) -/

/-- The `create_sphere` template from `InitializeIntentPatterns`. -/
def sphereTemplate : CommandTemplate :=
  ⟨"CreateSphere", ["center", "radius", "material", "layer"], "", []⟩

/-- The `create_box` template from `InitializeIntentPatterns`. -/
def boxTemplate : CommandTemplate :=
  ⟨"CreateBox", ["center", "dimensions", "material", "layer"], "", []⟩

/-- The `modify_object` template from `InitializeIntentPatterns`. -/
def modifyTemplate : CommandTemplate :=
  ⟨"ModifyObject", ["objectId", "operation", "parameters"], "", []⟩

/-- The `create_sphere` pattern. -/
def createSpherePattern : IntentPattern :=
  ⟨IntentCategory.directCommand, ["sphere", "ball", "round", "create", "make"],
    sphereTemplate⟩

/-- The `create_box` pattern. -/
def createBoxPattern : IntentPattern :=
  ⟨IntentCategory.directCommand, ["box", "cube", "rectangular", "create", "make"],
    boxTemplate⟩

/-- The `modify_object` pattern. -/
def modifyObjectPattern : IntentPattern :=
  ⟨IntentCategory.modification,
    ["modify", "change", "edit", "update", "move", "scale", "rotate"],
    modifyTemplate⟩

/-- The registered patterns in declaration order (`InitializeIntentPatterns`). -/
def intentPatterns : List IntentPattern :=
  [createSpherePattern, createBoxPattern, modifyObjectPattern]

/-- `IntentClassifier.CalculateConfidence`: weighted sum of keyword score and
context relevance score. -/
def calculateConfidence (input : String) (pattern : IntentPattern)
    (ctx : Option ConversationContext) : ℚ :=
  let keywordMatches := pattern.keywords.countP (fun k => strContains input k)
  let keywordScore : ℚ := (keywordMatches : ℚ) / (pattern.keywords.length : ℚ)
  let contextScore : ℚ :=
    match ctx with
    | some c => c.getRelevanceScore pattern.category
    | none => 0
  keywordScore * (7/10) + contextScore * (3/10)

/-- The `IntentResult` built for a winning pattern inside `ClassifyIntentAsync`
(`input` is already normalized). -/
def patternResult (input : String) (pattern : IntentPattern)
    (ctx : Option ConversationContext) : IntentResult :=
  ⟨pattern.category, some pattern.template, calculateConfidence input pattern ctx,
    pattern.keywords.filter (fun k => strContains input k)⟩

/-- `IntentClassifier.ClassifyIntentAsync`: lowercase the input, then keep the
first pattern whose confidence strictly exceeds the best so far. -/
def classifyIntent (input : String) (ctx : Option ConversationContext) : IntentResult :=
  let normalized := strToLower input
  intentPatterns.foldl
    (fun best pattern =>
      let confidence := calculateConfidence normalized pattern ctx
      if confidence > best.confidence then patternResult normalized pattern ctx
      else best)
    initIntentResult

/-! ## Parameter extractor (script_2.py, `ParameterExtractor`) -/

/-- Regex `radius\s+(\d+(?:\.\d+)?)` (IgnoreCase) anchored at the current
position: the keyword, mandatory whitespace, then a non-negative numeral. -/
def radiusAt1 (cs : List Char) : Option ℚ :=
  (matchCI "radius".data cs).bind fun r1 =>
  (ws1 r1).bind fun r2 =>
  (matchNumber r2).map Prod.fst

/-- The unit alternatives of `(?:units?|mm|cm|m)` in matching order. -/
def unitTokens : List (List Char) :=
  ["units".data, "unit".data, "mm".data, "cm".data, "m".data]

/-- The tail `\s*(?:units?|mm|cm|m)?\s+radius` of the second radius regex:
either whitespace directly followed by `radius`, or a unit token surrounded by
optional and mandatory whitespace. -/
def radiusTail (cs : List Char) : Bool :=
  let sp := cs.span Char.isWhitespace
  (!sp.1.isEmpty && (matchCI "radius".data sp.2).isSome)
  || unitTokens.any (fun u =>
      match matchCI u sp.2 with
      | none => false
      | some r2 =>
        match ws1 r2 with
        | none => false
        | some r3 => (matchCI "radius".data r3).isSome)

/-- Regex `(\d+(?:\.\d+)?)\s*(?:units?|mm|cm|m)?\s+radius` (IgnoreCase)
anchored at the current position. -/
def radiusAt2 (cs : List Char) : Option ℚ :=
  (matchNumber cs).bind fun p =>
  if radiusTail p.2 then some p.1 else none

/-- `ParameterExtractor.ExtractRadius`: first the `radius <number>` form, then
the `<number> [unit] radius` form. Both numerals are unsigned. -/
def extractRadius (input : String) : Option ℚ :=
  match searchPos radiusAt1 input.data with
  | some v => some v
  | none => searchPos radiusAt2 input.data

/-- Separator `\s*,\s*` of the coordinate regex. -/
def commaSep (cs : List Char) : Option (List Char) :=
  match wsAny cs with
  | ',' :: r2 => some (wsAny r2)
  | _ => none

/-- Regex `at\s+(-?\d+(?:\.\d+)?)\s*,\s*(-?\d+(?:\.\d+)?)\s*,\s*(-?\d+(?:\.\d+)?)`
(case-sensitive) anchored at the current position. -/
def coordAt (cs : List Char) : Option Point3d :=
  (matchCS "at".data cs).bind fun r1 =>
  (ws1 r1).bind fun r2 =>
  (matchSignedNumber r2).bind fun px =>
  (commaSep px.2).bind fun r4 =>
  (matchSignedNumber r4).bind fun py =>
  (commaSep py.2).bind fun r6 =>
  (matchSignedNumber r6).map fun pz => ⟨px.1, py.1, pz.1⟩

/-- `ParameterExtractor.ExtractRelativePosition`. -/
def extractRelativePosition (input : String) : Option Vector3d :=
  if strContainsCI input "next to" then some ⟨5, 0, 0⟩
  else if strContainsCI input "above" then some ⟨0, 0, 5⟩
  else if strContainsCI input "below" then some ⟨0, 0, -5⟩
  else none

/-- `ParameterExtractor.ExtractPoint3d`: explicit coordinates, then the
`origin` keyword, then relative positioning against the last created object. -/
def extractPoint3d (input : String) (ctx : Option ConversationContext) :
    Option Point3d :=
  match searchPos coordAt input.data with
  | some p => some p
  | none =>
    if strContainsCI input "origin" then some Point3d.origin
    else
      match ctx with
      | some c =>
        match c.lastCreatedObject with
        | some lo => (extractRelativePosition input).map fun v => lo.position.addVec v
        | none => none
      | none => none

/-- Separator `\s*[x×]\s*` of the dimension regex. -/
def xSep (cs : List Char) : Option (List Char) :=
  match wsAny cs with
  | c :: r2 => if c = 'x' ∨ c = '×' then some (wsAny r2) else none
  | [] => none

/-- Regex `(\d+(?:\.\d+)?)\s*[x×]\s*(\d+(?:\.\d+)?)\s*[x×]\s*(\d+(?:\.\d+)?)`
anchored at the current position. -/
def dimsAt (cs : List Char) : Option Vector3d :=
  (matchNumber cs).bind fun pw =>
  (xSep pw.2).bind fun r2 =>
  (matchNumber r2).bind fun pl =>
  (xSep pl.2).bind fun r4 =>
  (matchNumber r4).map fun ph => ⟨pw.1, pl.1, ph.1⟩

/-- `ParameterExtractor.ExtractDimensions`. -/
def extractDimensions (input : String) : Option Vector3d :=
  searchPos dimsAt input.data

/-- Word characters of regex `\w`. -/
def wordChar (c : Char) : Bool := c.isAlphanum || c = '_'

/-- Regex `(\w+)` anchored at the current position: the captured word and the
remainder. -/
def word1 (cs : List Char) : Option (String × List Char) :=
  let sp := cs.span wordChar
  if sp.1.isEmpty then none else some (String.mk sp.1, sp.2)

/-- Tail `\s+(\w+)` shared by the material alternatives. -/
def afterKeywordWord (rest : List Char) : Option String :=
  (ws1 rest).bind fun r => (word1 r).map Prod.fst

/-- Alternative `made\s+of` of the material regex, with its tail. -/
def tryMadeOf (cs : List Char) : Option String :=
  (matchCI "made".data cs).bind fun r1 =>
  (ws1 r1).bind fun r2 =>
  (matchCI "of".data r2).bind fun r3 =>
  afterKeywordWord r3

/-- Regex `(?:made\s+of|material|color)\s+(\w+)` (IgnoreCase) anchored at the
current position; alternatives tried in order. -/
def materialAt (cs : List Char) : Option String :=
  (tryMadeOf cs).orElse fun _ =>
  (((matchCI "material".data cs).bind afterKeywordWord).orElse fun _ =>
  ((matchCI "color".data cs).bind afterKeywordWord))

/-- `ParameterExtractor.ExtractMaterial`. -/
def extractMaterial (input : String) : Option String :=
  searchPos materialAt input.data

/-- Quote characters of `['\"]`. -/
def quoteChar (c : Char) : Bool := c = '\x27' ∨ c = '\x22'

/-- Fragment `['\"]?(\w+)` of the layer regex: an optional quote, then the
captured word (backtracking over the optional quote cannot help, since a quote
is not a word character). -/
def layerWordAt (cs : List Char) : Option String :=
  match cs with
  | c :: rest =>
    if quoteChar c then (word1 rest).map Prod.fst
    else (word1 cs).map Prod.fst
  | [] => none

/-- Tail `\s+['\"]?(\w+)['\"]?` shared by the layer alternatives (the trailing
optional quote never affects the capture). -/
def afterLayerKw (rest : List Char) : Option String :=
  (ws1 rest).bind layerWordAt

/-- Regex `(?:on\s+layer|layer)\s+['\"]?(\w+)['\"]?` (IgnoreCase) anchored at
the current position. -/
def layerAt (cs : List Char) : Option String :=
  ((matchCI "on".data cs).bind fun r1 =>
   (ws1 r1).bind fun r2 =>
   (matchCI "layer".data r2).bind afterLayerKw).orElse fun _ =>
  ((matchCI "layer".data cs).bind afterLayerKw)

/-- `ParameterExtractor.ExtractLayer`. -/
def extractLayer (input : String) : Option String :=
  searchPos layerAt input.data

/-- `ParameterExtractor.ExtractParameterAsync`: dispatch on the lowercased
parameter name; the `_extractors` fallback dictionary is empty
(`InitializeExtractors` returns an empty dictionary). -/
def extractParameter (input : String) (name : String)
    (ctx : Option ConversationContext) : Option Value :=
  match strToLower name with
  | "center" | "position" => (extractPoint3d input ctx).map Value.vpoint
  | "radius" => (extractRadius input).map Value.vdouble
  | "dimensions" | "size" => (extractDimensions input).map Value.vvec
  | "material" => (extractMaterial input).map Value.vstr
  | "layer" => (extractLayer input).map Value.vstr
  | _ => none

/-- `ParameterExtractor.ExtractParametersAsync`: for each template parameter,
store the extracted value; missing matches leave the key absent. -/
def extractParameters (input : String) (template : CommandTemplate)
    (ctx : Option ConversationContext) : Params :=
  template.parameters.foldl
    (fun m name =>
      match extractParameter input name ctx with
      | some v => paramsInsert m name v
      | none => m)
    emptyParams

/-! ## Typed accessors and parameter repair (script_2.py, `ParameterExtractor`) -/

/-- Helper for `parseDoubleStr`: an unsigned numeral consuming the whole input. -/
def matchNumberFull (cs : List Char) : Option ℚ :=
  match matchNumber cs with
  | some (q, []) => some q
  | _ => none

/-- Leading and trailing whitespace removal on a character list. -/
def trimWs (cs : List Char) : List Char :=
  ((cs.dropWhile Char.isWhitespace).reverse.dropWhile Char.isWhitespace).reverse

/-- Approximation of `double.TryParse` (invariant decimal): optional sign, then
a plain numeral, after trimming whitespace. -/
def parseDoubleStr (s : String) : Option ℚ :=
  match trimWs s.data with
  | '-' :: rest => (matchNumberFull rest).map Neg.neg
  | '+' :: rest => matchNumberFull rest
  | cs => matchNumberFull cs

/-- Rendering of a stored value by `object.ToString()`; only the string case is
ever re-parsed as a double. -/
def valueToString : Value → String
  | Value.vstr s => s
  | Value.vdouble q => toString q
  | Value.vint i => toString i
  | Value.vpoint _ => "Point3d"
  | Value.vvec _ => "Vector3d"

/-- `ParameterExtractor.GetDouble`: a boxed double or int is used directly, a
string is re-parsed, anything else falls back to the default. -/
def getDouble (params : Params) (key : String) (defaultValue : ℚ) : ℚ :=
  match params key with
  | some (Value.vdouble d) => d
  | some (Value.vint i) => (i : ℚ)
  | some v =>
    match parseDoubleStr (valueToString v) with
    | some q => q
    | none => defaultValue
  | none => defaultValue

/-- `ParameterExtractor.GetPoint3d` (the `double[]` coercion branch is not
representable among the stored value shapes of this embedding). -/
def getPoint3d (params : Params) (key : String) (defaultValue : Point3d) : Point3d :=
  match params key with
  | some (Value.vpoint p) => p
  | _ => defaultValue

/-- `ParameterExtractor.GetString`. -/
def getString (params : Params) (key : String) (defaultValue : String) : String :=
  match params key with
  | some v => valueToString v
  | none => defaultValue

/-- `ParameterExtractor.AdjustParametersAsync`: copy the dictionary, then clamp
an out-of-range boxed-double radius when the error message mentions `radius`. -/
def adjustParameters (params : Params) (errorMessage : String) : Params :=
  if strContainsCI errorMessage "radius" then
    match params "radius" with
    | some (Value.vdouble radius) =>
      let adjusted1 :=
        if radius ≤ 0 then paramsInsert params "radius" (Value.vdouble 1) else params
      if radius > 1000 then paramsInsert adjusted1 "radius" (Value.vdouble 10)
      else adjusted1
    | _ => params
  else params

/-! ## Semantic validator (script_2.py, `SemanticValidator`) -/

/-- `SemanticValidator.ValidateSphereParameters`. -/
def validateSphereParameters (params : Params) : ValidationResult :=
  match params "radius" with
  | some (Value.vdouble radius) =>
    if radius ≤ 0 then ValidationResult.invalidR "Sphere radius must be positive"
    else ValidationResult.validR
  | _ => ValidationResult.validR

/-- `SemanticValidator.ValidateBoxParameters`. -/
def validateBoxParameters (params : Params) : ValidationResult :=
  match params "dimensions" with
  | some (Value.vvec d) =>
    if d.x ≤ 0 ∨ d.y ≤ 0 ∨ d.z ≤ 0 then
      ValidationResult.invalidR "Box dimensions must be positive"
    else ValidationResult.validR
  | _ => ValidationResult.validR

/-- `SemanticValidator.ValidateCylinderParameters`. -/
def validateCylinderParameters (params : Params) : ValidationResult :=
  match params "radius" with
  | some (Value.vdouble radius) =>
    if radius ≤ 0 then ValidationResult.invalidR "Cylinder radius must be positive"
    else
      match params "height" with
      | some (Value.vdouble height) =>
        if height ≤ 0 then ValidationResult.invalidR "Cylinder height must be positive"
        else ValidationResult.validR
      | _ => ValidationResult.validR
  | _ =>
    match params "height" with
    | some (Value.vdouble height) =>
      if height ≤ 0 then ValidationResult.invalidR "Cylinder height must be positive"
      else ValidationResult.validR
    | _ => ValidationResult.validR

/-- `SemanticValidator.ValidateParametersAsync`: per-template structural rules;
unknown command names keep the initial valid result. -/
def validateParameters (params : Params) (template : CommandTemplate) :
    ValidationResult :=
  match template.commandName with
  | "CreateSphere" => validateSphereParameters params
  | "CreateBox" => validateBoxParameters params
  | "CreateCylinder" => validateCylinderParameters params
  | _ => ValidationResult.validR

/-- `SemanticValidator.ValidateContextConstraints`: the source returns Valid. -/
def validateContextConstraints (_params : Params)
    (_ctx : Option ConversationContext) : ValidationResult :=
  ValidationResult.validR

/-- `SemanticValidator.PreExecuteValidationAsync`: structural check, then
context-dependent constraints. -/
def preExecuteValidation (template : CommandTemplate) (params : Params)
    (ctx : Option ConversationContext) : ValidationResult :=
  let result := validateParameters params template
  if result.isValid then validateContextConstraints params ctx else result

/-! ## Fallback handler (modelled from the spec) -/

/-- Modelled from the spec: the `FallbackHandler` class is referenced by
`EnhancedNLPProcessor` but its body is not in the provided source.
Spec section 4.7: low-confidence classification maps to a Partial result
inviting clarification. -/
def handleLowConfidence (_input : String) (_intent : IntentResult) :
    ProcessingResult :=
  ProcessingResult.mkPartialK "Could you clarify your request?"

/-- Modelled from the spec: `FallbackHandler.HandleExceptionAsync` is not in
the provided source. Spec section 4.7: unexpected internal faults are surfaced
as an Error result with a stable generic message. -/
def handleException (_message : String) : ProcessingResult :=
  ProcessingResult.mkError "An unexpected error occurred."

/-- Modelled from the spec: `FallbackHandler.HandleFailedExecutionAsync` is not
in the provided source. Spec section 4.7: execution exhaustion maps to an Error
result summarizing the last failure without leaking internal detail. -/
def handleFailedExecution (_lastException : Option String) : ProcessingResult :=
  ProcessingResult.mkError "Command execution failed after retries."

/-! ## Command execution (script_1.py, `EnhancedNLPProcessor`) -/

/-- Oracle for the external Rhino geometry collaborator: whether the produced
brep is valid, the identifier returned by `AddBrep` (`none` is `Guid.Empty`),
and the outcomes of the box and cylinder creators, whose bodies
(`CreateEnhancedBox`, `CreateEnhancedCylinder`) are not in the provided source. -/
structure GeomOracle where
  brepValid : Bool
  addBrep : Option ℕ
  boxOutcome : ProcessingResult
  cylinderOutcome : ProcessingResult

/-- Externally visible side effects of one command execution: the created
objects recorded into the conversation context via `AddCreatedObject`. -/
structure ExecEffects where
  createdObjects : List (ℕ × String)
deriving DecidableEq, Repr

/-- No side effects. -/
def noEffects : ExecEffects := ⟨[]⟩

/-- Fixed-point rendering approximating the `F2` format of the source message. -/
def formatF2 (q : ℚ) : String :=
  let n : ℤ := Int.floor (q * 100 + 1/2)
  let whole := n / 100
  let frac := (n % 100).toNat
  toString whole ++ "." ++ (if frac < 10 then "0" else "") ++ toString frac

/-- Comma rendering of a point for the success message. -/
def pointToString (p : Point3d) : String :=
  toString p.x ++ "," ++ toString p.y ++ "," ++ toString p.z

/-- `EnhancedNLPProcessor.CreateEnhancedSphere`: defaults, semantic guards
(non-positive radius is an Error, radius above 1000 returns a Warning
immediately), then geometry creation and context recording. -/
def createEnhancedSphere (geom : GeomOracle) (params : Params)
    (ctx : Option ConversationContext) : ProcessingResult × ExecEffects :=
  let center := getPoint3d params "center" Point3d.origin
  let radius := getDouble params "radius" 1
  let material := getString params "material" ""
  let layer := getString params "layer" ""
  if radius ≤ 0 then
    (ProcessingResult.mkError "Sphere radius must be positive.", noEffects)
  else if radius > 1000 then
    (ProcessingResult.mkWarning
      ("Large sphere (radius: " ++ formatF2 radius ++ "). Continuing..."), noEffects)
  else if geom.brepValid then
    match geom.addBrep with
    | some id =>
      let effects : ExecEffects := ⟨if ctx.isSome then [(id, "sphere")] else []⟩
      let msg0 := "Created sphere at " ++ pointToString center ++
        " with radius " ++ formatF2 radius
      let msg1 := if layer ≠ "" then msg0 ++ " on layer \x27" ++ layer ++ "\x27" else msg0
      let msg2 := if material ≠ "" then msg1 ++ " with material \x27" ++ material ++ "\x27" else msg1
      (ProcessingResult.mkSuccess msg2, effects)
    | none =>
      (ProcessingResult.mkError "Failed to create sphere - invalid geometry", noEffects)
  else
    (ProcessingResult.mkError "Failed to create sphere - invalid geometry", noEffects)

/-- `EnhancedNLPProcessor.ExecuteRhinoCommand`: pre-execution validation, then
dispatch on the command name; unknown names yield an Error. -/
def executeRhinoCommand (geom : GeomOracle) (template : CommandTemplate)
    (params : Params) (ctx : Option ConversationContext) :
    ProcessingResult × ExecEffects :=
  let pre := preExecuteValidation template params ctx
  if ¬ pre.isValid then (ProcessingResult.mkError pre.errorMessage, noEffects)
  else
    match template.commandName with
    | "CreateSphere" => createEnhancedSphere geom params ctx
    | "CreateBox" => (geom.boxOutcome, noEffects)
    | "CreateCylinder" => (geom.cylinderOutcome, noEffects)
    | other =>
      (ProcessingResult.mkError ("Command \x27" ++ other ++ "\x27 is not implemented."),
        noEffects)

/-! ## Retry loop (script_1.py, `ExecuteWithRetry`) -/

/-- Outcome of one dispatch attempt: a returned result, or a thrown exception. -/
inductive DispatchOutcome where
  | returns : ProcessingResult → DispatchOutcome
  | raises : String → DispatchOutcome
deriving DecidableEq, Repr

/-- Observable trace of one `ExecuteWithRetry` run: how many dispatch attempts
ran, after which attempts the parameters were adjusted, and the backoff delays
awaited, as (attempt index, delay in milliseconds) pairs. -/
structure RetryTrace where
  dispatchCount : ℕ
  adjustedAfter : List ℕ
  delays : List (ℕ × ℕ)
deriving DecidableEq, Repr

/-- The loop body of `ExecuteWithRetry`, with the remaining iterations as
fuel: a successful result returns, a non-success result triggers parameter
adjustment before the next attempt, an exception is recorded and, unless
attempts are exhausted, followed by a `1000 * (attempt + 1)` millisecond delay
(the statement `await Task.Delay(1000 * (attempt + 1))` of the source); after
the loop the fallback handler produces the final result. -/
def executeWithRetryGo (dispatch : ℕ → Params → DispatchOutcome)
    (adjust : Params → String → Params) (maxRetries : ℕ) :
    ℕ → ℕ → Params → Option String → RetryTrace → ProcessingResult × RetryTrace
  | 0, _, _, lastException, tr => (handleFailedExecution lastException, tr)
  | fuel + 1, attempt, params, lastException, tr =>
    match dispatch attempt params with
    | DispatchOutcome.returns r =>
      if r.isSuccess then (r, { tr with dispatchCount := tr.dispatchCount + 1 })
      else if attempt < maxRetries - 1 then
        executeWithRetryGo dispatch adjust maxRetries fuel (attempt + 1)
          (adjust params r.errorMessage) lastException
          { tr with dispatchCount := tr.dispatchCount + 1,
                    adjustedAfter := tr.adjustedAfter ++ [attempt] }
      else
        executeWithRetryGo dispatch adjust maxRetries fuel (attempt + 1)
          params lastException
          { tr with dispatchCount := tr.dispatchCount + 1 }
    | DispatchOutcome.raises msg =>
      if attempt < maxRetries - 1 then
        executeWithRetryGo dispatch adjust maxRetries fuel (attempt + 1)
          params (some msg)
          { tr with dispatchCount := tr.dispatchCount + 1,
                    delays := tr.delays ++ [(attempt, 1000 * (attempt + 1))] }
      else
        executeWithRetryGo dispatch adjust maxRetries fuel (attempt + 1)
          params (some msg)
          { tr with dispatchCount := tr.dispatchCount + 1 }

/-- `EnhancedNLPProcessor.ExecuteWithRetry` (default `maxRetries = 3` at the
single call site). -/
def executeWithRetry (dispatch : ℕ → Params → DispatchOutcome)
    (adjust : Params → String → Params) (params : Params) (maxRetries : ℕ) :
    ProcessingResult × RetryTrace :=
  executeWithRetryGo dispatch adjust maxRetries maxRetries 0 params none ⟨0, [], []⟩

/-! ## AI providers and cache (script_1.py and script_2.py) -/

/-- One registered provider: `none` models a null client delegate; otherwise
the call either throws (`Except.error`) or returns a response text. The string
component is the provider name used for logging. -/
abbrev ProviderEntry := Option (Except String String) × String

/-- Boolean test that a provider call does not yield a usable response: a null
delegate, a thrown exception, or a null/empty response text. -/
def providerFails (p : ProviderEntry) : Bool :=
  match p.1 with
  | none => true
  | some (Except.error _) => true
  | some (Except.ok s) => s = ""

/-- The provider names attempted by the loop: every non-null provider up to and
including the first one with a non-empty response. -/
def attemptedNames (ps : List ProviderEntry) : List String :=
  ps.filterMap fun p =>
    match p.1 with
    | none => none
    | some _ => some p.2

/-- Loop of `TryMultipleProvidersAsync` with the accumulated attempted names:
skip null providers, continue past exceptions and empty responses, stop at the
first non-empty response; exhaustion throws `InvalidOperationException`. -/
def tryMultipleProvidersGo : List ProviderEntry → List String →
    Except String String × List String
  | [], tried => (Except.error "All AI providers failed", tried)
  | (none, _) :: rest, tried => tryMultipleProvidersGo rest tried
  | (some (Except.error _), name) :: rest, tried =>
    tryMultipleProvidersGo rest (tried ++ [name])
  | (some (Except.ok s), name) :: rest, tried =>
    if s = "" then tryMultipleProvidersGo rest (tried ++ [name])
    else (Except.ok s, tried ++ [name])

/-- `EnhancedNLPProcessor.TryMultipleProvidersAsync`. -/
def tryMultipleProviders (ps : List ProviderEntry) :
    Except String String × List String :=
  tryMultipleProvidersGo ps []

/-- `CachedResponse` with its expiry instant (minutes). -/
structure CachedResponse where
  result : ProcessingResult
  expiryTime : ℕ
deriving DecidableEq, Repr

/-- `CachedResponse.IsExpired`: strictly past the expiry instant. -/
def CachedResponse.isExpired (c : CachedResponse) (now : ℕ) : Bool :=
  now > c.expiryTime

/-- The response cache keyed by fingerprint strings. -/
def Cache : Type := String → Option CachedResponse

/-- Cache insert / overwrite. -/
def cacheInsert (c : Cache) (k : String) (v : CachedResponse) : Cache :=
  fun q => if q = k then some v else c q

/-- The fixed cache time-to-live (`DateTime.UtcNow.AddMinutes(5)`). -/
def cacheTTL : ℕ := 5

/-- Modelled from the spec: `GenerateCacheKey` is not in the provided source.
Spec section 4.5: the fingerprint combines the normalized utterance with a
stable rendering of the relevant context fields. -/
def generateCacheKey (input : String) (ctx : Option ConversationContext) : String :=
  strToLower input ++ "|" ++
    (match ctx with
     | some c => String.intercalate "," c.recentOperations ++ "|" ++ c.activeLayer
     | none => "")

/-- One action of a structured AI reply. -/
structure AIAction where
  commandName : String
  parameters : Params
  confidence : ℚ

/-- A parsed AI reply: an action list and an optional free-text explanation. -/
structure AIResponse where
  actions : List AIAction
  responseText : Option String

/-- Collaborator environment of `ProcessWithAI`: the registered providers in
priority order, the recovery parser oracle (`RobustJsonParser` is not in the
provided source), the per-action executor oracle (`ProcessActionWithValidation`
is not in the provided source), the current cache and the current instant. -/
structure AIEnv where
  providers : List ProviderEntry
  parseWithRecovery : String → Option AIResponse
  processAction : AIAction → String
  cache : Cache
  now : ℕ

/-- Outcome of `ProcessWithAI`: the result, the updated cache, and whether the
result was served from a live cache entry. -/
structure AIOutcome where
  result : ProcessingResult
  cache : Cache
  usedCache : Bool

/-- Cache-miss continuation of `ProcessWithAI`: call the providers (the
provider-exhaustion exception propagates), parse with recovery, execute the
actions and cache a successful combined result with a 5-minute expiry; a reply
without actions yields an uncached Partial result. -/
def processWithAIMiss (env : AIEnv) (cacheKey : String) : Except String AIOutcome :=
  match tryMultipleProviders env.providers with
  | (Except.error e, _) => Except.error e
  | (Except.ok response, _) =>
    match env.parseWithRecovery response with
    | some aiResponse =>
      if aiResponse.actions.length > 0 then
        let results := aiResponse.actions.map env.processAction
        let finalResult := ProcessingResult.mkSuccess (String.intercalate "\n" results)
        Except.ok ⟨finalResult,
          cacheInsert env.cache cacheKey ⟨finalResult, env.now + cacheTTL⟩, false⟩
      else
        Except.ok ⟨ProcessingResult.mkPartialK
          (aiResponse.responseText.getD "Could not process the request completely."),
          env.cache, false⟩
    | none =>
      Except.ok ⟨ProcessingResult.mkPartialK "Could not process the request completely.",
        env.cache, false⟩

/-- Cache probe of `ProcessWithAI` at an already computed fingerprint: serve a
live hit immediately, otherwise run the provider/parser/executor path. -/
def processWithAIAt (env : AIEnv) (cacheKey : String) : Except String AIOutcome :=
  match env.cache cacheKey with
  | some cached =>
    if ¬ cached.isExpired env.now then Except.ok ⟨cached.result, env.cache, true⟩
    else processWithAIMiss env cacheKey
  | none => processWithAIMiss env cacheKey

/-- `EnhancedNLPProcessor.ProcessWithAI`: compute the cache fingerprint
(`cacheKey` in the source), then probe the cache and fall through to the
provider path as needed. -/
def processWithAI (env : AIEnv) (input : String)
    (ctx : Option ConversationContext) : Except String AIOutcome :=
  processWithAIAt env (generateCacheKey input ctx)

/-! ## Context manager (script_2.py, `ContextManager`) -/

/-- `ConversationTurn`. -/
structure ConversationTurn where
  input : String
  timestamp : ℕ

/-- `_maxHistorySize`. -/
def maxHistorySize : ℕ := 10

/-- Regex `create\s+(\w+)` (IgnoreCase) anchored at the current position,
rendered as `create_` plus the captured word. -/
def createOpAt (cs : List Char) : Option String :=
  (matchCI "create".data cs).bind fun r1 =>
  (ws1 r1).bind fun r2 =>
  (word1 r2).map fun p => "create_" ++ p.1

/-- The alternatives of `(move|scale|rotate|modify)` in matching order. -/
def modifyVerbs : List String := ["move", "scale", "rotate", "modify"]

/-- Regex `(move|scale|rotate|modify)` (IgnoreCase) anchored at the current
position; the captured verb is lowercased by the source, which yields the
alternative itself. -/
def modifyOpAt (cs : List Char) : Option String :=
  modifyVerbs.find? fun v => (matchCI v.data cs).isSome

/-- `ContextManager.ExtractOperation`. -/
def extractOperation (input : String) : Option String :=
  match searchPos createOpAt input.data with
  | some op => some op
  | none => searchPos modifyOpAt input.data

/-- Last `n` elements of a list (`TakeLast`). -/
def takeLastN {α : Type} (n : ℕ) (l : List α) : List α :=
  l.drop (l.length - n)

/-- `ContextManager.ExtractRecentOperations`: operations derived from the last
five turns, null results filtered out. -/
def extractRecentOperations (history : List ConversationTurn) : List String :=
  (takeLastN 5 history).filterMap fun t => extractOperation t.input

/-- `ContextManager.EnhanceContextAsync`: enqueue the turn, evict the oldest
turns beyond capacity, then refresh the derived fields (the host hooks of the
source return the constants `"Default"`, the empty selection and
`"Empty scene"`). Returns the enhanced context and the updated history. -/
def enhanceContext (history : List ConversationTurn) (input : String) (now : ℕ)
    (ctx : Option ConversationContext) : ConversationContext × List ConversationTurn :=
  let h1 := history ++ [⟨input, now⟩]
  let h2 := h1.drop (h1.length - maxHistorySize)
  let enhanced := ctx.getD defaultContext
  ({ enhanced with
      recentOperations := extractRecentOperations h2,
      activeLayer := "Default",
      selectedObjects := [],
      sceneDescription := "Empty scene" }, h2)

/-! ## Pipeline controller (script_1.py, `ProcessNaturalLanguageAsync`) -/

/-- The components a pipeline run can invoke, in invocation order. -/
inductive Step where
  | classify
  | enhanceCtx
  | extract
  | validate
  | execute
  | aiCall
  | fallbackLowConf
  | fallbackException
  | complexOp
  | queryOp
  | modifyOp
deriving DecidableEq, Repr

/-- Collaborator environment of one pipeline run. The results of
`ProcessComplexOperation`, `ProcessQuery` and `ProcessModification` are oracle
fields, since their bodies are not in the provided source. -/
structure PipelineEnv where
  geom : GeomOracle
  ai : AIEnv
  history : List ConversationTurn
  now : ℕ
  complexOutcome : ProcessingResult
  queryOutcome : ProcessingResult
  modificationOutcome : ProcessingResult

/-- Outcome of one pipeline run: the user-facing result, the trace of invoked
components, and the cache afterwards. -/
structure PipelineOutcome where
  result : ProcessingResult
  steps : List Step
  cache : Cache

/-- `EnhancedNLPProcessor.ProcessDirectCommand`: extraction, semantic
validation (an invalid result returns an Error without dispatching), then the
retry loop around `ExecuteRhinoCommand`. -/
def processDirectCommand (geom : GeomOracle) (input : String)
    (template : CommandTemplate) (ectx : ConversationContext) :
    ProcessingResult × List Step :=
  let params := extractParameters input template (some ectx)
  let validationResult := validateParameters params template
  if ¬ validationResult.isValid then
    (ProcessingResult.mkError ("Invalid parameters: " ++ validationResult.errorMessage),
      [Step.extract, Step.validate])
  else
    let run := executeWithRetry
      (fun _ p => DispatchOutcome.returns (executeRhinoCommand geom template p (some ectx)).1)
      adjustParameters params 3
    (run.1, [Step.extract, Step.validate, Step.execute])

/-- `EnhancedNLPProcessor.ProcessNaturalLanguageAsync`: reject empty or
whitespace-only input immediately; classify; confidence below 0.7 goes to the
fallback handler; otherwise enhance the context and dispatch on the intent
category, the default case being the AI path. A thrown exception (provider
exhaustion, or the null-template dereference of the unreachable
direct-command-without-template case) is caught at this boundary and handed to
the fallback handler. -/
def processNaturalLanguage (env : PipelineEnv) (input : String)
    (ctx : Option ConversationContext) : PipelineOutcome :=
  if isNullOrWhiteSpace input then
    ⟨ProcessingResult.mkError "Please provide a valid input.", [], env.ai.cache⟩
  else
    let intentResult := classifyIntent input ctx
    if intentResult.confidence < 7/10 then
      ⟨handleLowConfidence input intentResult, [Step.classify, Step.fallbackLowConf],
        env.ai.cache⟩
    else
      let ectx := (enhanceContext env.history input env.now ctx).1
      match intentResult.category with
      | IntentCategory.directCommand =>
        match intentResult.template with
        | some template =>
          let run := processDirectCommand env.geom input template ectx
          ⟨run.1, Step.classify :: Step.enhanceCtx :: run.2, env.ai.cache⟩
        | none =>
          ⟨handleException "Object reference not set to an instance of an object.",
            [Step.classify, Step.enhanceCtx, Step.fallbackException], env.ai.cache⟩
      | IntentCategory.complexOperation =>
        ⟨env.complexOutcome, [Step.classify, Step.enhanceCtx, Step.complexOp],
          env.ai.cache⟩
      | IntentCategory.query =>
        ⟨env.queryOutcome, [Step.classify, Step.enhanceCtx, Step.queryOp],
          env.ai.cache⟩
      | IntentCategory.modification =>
        ⟨env.modificationOutcome, [Step.classify, Step.enhanceCtx, Step.modifyOp],
          env.ai.cache⟩
      | IntentCategory.unknown =>
        match processWithAI env.ai input (some ectx) with
        | Except.ok out =>
          ⟨out.result, [Step.classify, Step.enhanceCtx, Step.aiCall], out.cache⟩
        | Except.error e =>
          ⟨handleException e,
            [Step.classify, Step.enhanceCtx, Step.aiCall, Step.fallbackException],
            env.ai.cache⟩

/-! ## Sample collaborator environments for concrete evaluations -/

/-- A geometry oracle whose creation succeeds with object identifier 1. -/
def sampleGeom : GeomOracle :=
  ⟨true, some 1, ProcessingResult.mkSuccess "box", ProcessingResult.mkSuccess "cylinder"⟩

/-- The empty cache. -/
def emptyCache : Cache := fun _ => none

/-- An AI environment with one succeeding provider and a parser that reads an
action-free reply. -/
def sampleAIEnv : AIEnv :=
  ⟨[(some (Except.ok "reply"), "OpenAI"), (some (Except.ok "reply"), "Claude")],
    fun _ => some ⟨[], some "explanation"⟩,
    fun _ => "",
    emptyCache, 0⟩

/-- A pipeline environment over the sample collaborators. -/
def sampleEnv : PipelineEnv :=
  ⟨sampleGeom, sampleAIEnv, [], 0,
    ProcessingResult.mkSuccess "complex", ProcessingResult.mkSuccess "query",
    ProcessingResult.mkSuccess "modification"⟩

/-! ## Helper lemmas -/

/-- Every backoff delay recorded by the retry loop pairs an attempt index
strictly below `maxRetries - 1` with the delay value `1000 * (attempt + 1)`. -/
theorem retryGo_delays (dispatch : ℕ → Params → DispatchOutcome)
    (adjust : Params → String → Params) (maxRetries : ℕ) :
    ∀ fuel attempt params lastException tr,
      (∀ p ∈ tr.delays, p.2 = 1000 * (p.1 + 1) ∧ p.1 < maxRetries - 1) →
      ∀ p ∈ (executeWithRetryGo dispatch adjust maxRetries fuel attempt params
          lastException tr).2.delays,
        p.2 = 1000 * (p.1 + 1) ∧ p.1 < maxRetries - 1 := by
  intro fuel
  induction fuel with
  | zero =>
    intro attempt params lastException tr h
    simpa [executeWithRetryGo] using h
  | succ n ih =>
    intro attempt params lastException tr h
    simp only [executeWithRetryGo]
    cases dispatch attempt params with
    | returns r =>
      by_cases hs : r.isSuccess
      · simpa [hs] using h
      · by_cases hlt : attempt < maxRetries - 1
        · simp only [hs, hlt, if_true, if_false, Bool.false_eq_true]
          exact ih _ _ _ _ h
        · simp only [hs, hlt, if_true, if_false, Bool.false_eq_true]
          exact ih _ _ _ _ h
    | raises msg =>
      by_cases hlt : attempt < maxRetries - 1
      · simp only [hlt, if_true]
        refine ih _ _ _ _ ?_
        intro p hp
        simp only [List.mem_append, List.mem_singleton] at hp
        rcases hp with hp | hp
        · exact h p hp
        · subst hp
          exact ⟨rfl, hlt⟩
      · simp only [hlt, if_false]
        exact ih _ _ _ _ h

/-- Confidence scores are non-negative. -/
theorem calculateConfidence_nonneg (input : String) (pattern : IntentPattern)
    (ctx : Option ConversationContext) : 0 ≤ calculateConfidence input pattern ctx := by
  unfold calculateConfidence
  cases ctx with
  | none =>
    simp only []
    positivity
  | some c =>
    simp only [ConversationContext.getRelevanceScore]
    positivity

/-! ## Claim theorems -/

/-- C4: when a dispatch attempt inside `ExecuteWithRetry` raises and attempts
are not exhausted, the delay before the retry equals `base_delay * 2 ^ attempt`
with `base_delay = 1000` milliseconds. The source computes
`1000 * (attempt + 1)`, which coincides with `1000 * 2 ^ attempt` on every
attempt index at which a delay can occur under the fixed maximum of 3 attempts
(indices 0 and 1). -/
theorem C4_backoff_is_exponential (dispatch : ℕ → Params → DispatchOutcome)
    (adjust : Params → String → Params) (params : Params) (p : ℕ × ℕ)
    (hp : p ∈ (executeWithRetry dispatch adjust params 3).2.delays) :
    p.2 = 1000 * 2 ^ p.1 := by
  have h := retryGo_delays dispatch adjust 3 3 0 params none ⟨0, [], []⟩
    (by intro q hq; simp at hq) p hp
  obtain ⟨hval, hlt⟩ := h
  have h01 : p.1 = 0 ∨ p.1 = 1 := by omega
  rcases h01 with h0 | h1
  · rw [hval, h0]; norm_num
  · rw [hval, h1]; norm_num

/-- Witness for C4 at a dispatch oracle that always raises: the recorded first
delay is 1000 ms and equals `1000 * 2 ^ 0`. -/
theorem C4_backoff_is_exponential_witness :
    ((0, 1000) ∈ (executeWithRetry (fun _ _ => DispatchOutcome.raises "boom")
      (fun p _ => p) emptyParams 3).2.delays) ∧ (1000 : ℕ) = 1000 * 2 ^ 0 :=
  ⟨by decide, C4_backoff_is_exponential (fun _ _ => DispatchOutcome.raises "boom")
    (fun p _ => p) emptyParams (0, 1000) (by decide)⟩

/-- C7: with a dispatch collaborator that reports non-success on the first two
attempts and succeeds on the third, `ExecuteWithRetry` returns the successful
result after exactly 3 dispatch attempts, with parameter adjustment invoked
after attempt 0 and after attempt 1, and no backoff delays. -/
theorem C7_two_failures_then_success (dispatch : ℕ → Params → DispatchOutcome)
    (adjust : Params → String → Params) (params : Params)
    (r0 r1 r2 : ProcessingResult)
    (h0 : dispatch 0 params = DispatchOutcome.returns r0)
    (h0f : r0.isSuccess = false)
    (h1 : dispatch 1 (adjust params r0.errorMessage) = DispatchOutcome.returns r1)
    (h1f : r1.isSuccess = false)
    (h2 : dispatch 2 (adjust (adjust params r0.errorMessage) r1.errorMessage) =
      DispatchOutcome.returns r2)
    (h2s : r2.isSuccess = true) :
    executeWithRetry dispatch adjust params 3 = (r2, ⟨3, [0, 1], []⟩) := by
  simp [executeWithRetry, executeWithRetryGo, h0, h1, h2, h0f, h1f, h2s]

/-- A dispatch oracle failing twice then succeeding, for the C7 witness. -/
def c7Dispatch : ℕ → Params → DispatchOutcome := fun attempt _ =>
  if attempt = 0 then DispatchOutcome.returns (ProcessingResult.mkError "first failure")
  else if attempt = 1 then DispatchOutcome.returns (ProcessingResult.mkError "second failure")
  else DispatchOutcome.returns (ProcessingResult.mkSuccess "ok")

/-- Witness for C7 at the concrete fail-fail-succeed oracle. -/
theorem C7_two_failures_then_success_witness :
    executeWithRetry c7Dispatch adjustParameters emptyParams 3 =
      (ProcessingResult.mkSuccess "ok", ⟨3, [0, 1], []⟩) :=
  C7_two_failures_then_success c7Dispatch adjustParameters emptyParams
    (ProcessingResult.mkError "first failure") (ProcessingResult.mkError "second failure")
    (ProcessingResult.mkSuccess "ok") rfl rfl (by decide) rfl (by decide) rfl

/-- C8: every empty or whitespace-only input yields the immediate Error result,
with an empty component trace (no classification, context update, extraction,
validation, provider call, caching, or dispatch) and the cache untouched. -/
theorem C8_blank_input_immediate_error (env : PipelineEnv) (input : String)
    (ctx : Option ConversationContext) (h : isNullOrWhiteSpace input = true) :
    processNaturalLanguage env input ctx =
      ⟨ProcessingResult.mkError "Please provide a valid input.", [], env.ai.cache⟩ := by
  simp [processNaturalLanguage, h]

/-- Witness for C8 at the whitespace-only input. -/
theorem C8_blank_input_immediate_error_witness :
    processNaturalLanguage sampleEnv "   " none =
      ⟨ProcessingResult.mkError "Please provide a valid input.", [], sampleEnv.ai.cache⟩ :=
  C8_blank_input_immediate_error sampleEnv "   " none (by decide)

/-- C9: `AdjustParameters` is a pure function returning a new mapping (the
input mapping is untouched); every key other than `radius` keeps its input
value, and the `radius` value changes only when the error message mentions
`radius` (case-insensitively) and the stored radius is a boxed double that is
non-positive (replaced by the safe default 1.0) or exceeds 1000 (replaced by
the smaller default 10.0). -/
theorem C9_adjust_parameters_frame (params : Params) (errorMessage : String) :
    (∀ k, k ≠ "radius" → adjustParameters params errorMessage k = params k) ∧
    (adjustParameters params errorMessage "radius" ≠ params "radius" →
      strContainsCI errorMessage "radius" = true ∧
      ∃ r : ℚ, params "radius" = some (Value.vdouble r) ∧
        ((r ≤ 0 ∧ adjustParameters params errorMessage "radius" = some (Value.vdouble 1)) ∨
         (1000 < r ∧ adjustParameters params errorMessage "radius" = some (Value.vdouble 10)))) := by
  by_cases hci : strContainsCI errorMessage "radius" = true
  case neg =>
    have hEq : adjustParameters params errorMessage = params := by
      unfold adjustParameters
      simp [hci]
    rw [hEq]
    exact ⟨fun _ _ => rfl, fun h => absurd rfl h⟩
  case pos =>
    cases hpr : params "radius" with
    | none =>
      have hEq : adjustParameters params errorMessage = params := by
        unfold adjustParameters
        simp [hci, hpr]
      rw [hEq]
      refine ⟨fun _ _ => rfl, fun h => ?_⟩
      rw [hpr] at h
      exact absurd rfl h
    | some v =>
      cases v with
      | vdouble r =>
        by_cases hr0 : r ≤ 0
        · have h1000 : ¬ r > 1000 := by linarith
          have hEq : adjustParameters params errorMessage =
              paramsInsert params "radius" (Value.vdouble 1) := by
            unfold adjustParameters
            simp [hci, hpr, hr0, h1000]
          rw [hEq]
          refine ⟨fun k hk => ?_, fun _ => ⟨hci, r, rfl, Or.inl ⟨hr0, ?_⟩⟩⟩
          · unfold paramsInsert
            simp [hk]
          · unfold paramsInsert
            simp
        · by_cases hr1000 : r > 1000
          · have hEq : adjustParameters params errorMessage =
                paramsInsert params "radius" (Value.vdouble 10) := by
              unfold adjustParameters
              simp [hci, hpr, hr0, hr1000]
            rw [hEq]
            refine ⟨fun k hk => ?_, fun _ => ⟨hci, r, rfl, Or.inr ⟨hr1000, ?_⟩⟩⟩
            · unfold paramsInsert
              simp [hk]
            · unfold paramsInsert
              simp
          · have hEq : adjustParameters params errorMessage = params := by
              unfold adjustParameters
              simp [hci, hpr, hr0, hr1000]
            rw [hEq]
            refine ⟨fun _ _ => rfl, fun h => ?_⟩
            rw [hpr] at h
            exact absurd rfl h
      | vint i =>
        have hEq : adjustParameters params errorMessage = params := by
          unfold adjustParameters
          simp [hci, hpr]
        rw [hEq]
        refine ⟨fun _ _ => rfl, fun h => ?_⟩
        rw [hpr] at h
        exact absurd rfl h
      | vstr s =>
        have hEq : adjustParameters params errorMessage = params := by
          unfold adjustParameters
          simp [hci, hpr]
        rw [hEq]
        refine ⟨fun _ _ => rfl, fun h => ?_⟩
        rw [hpr] at h
        exact absurd rfl h
      | vpoint p =>
        have hEq : adjustParameters params errorMessage = params := by
          unfold adjustParameters
          simp [hci, hpr]
        rw [hEq]
        refine ⟨fun _ _ => rfl, fun h => ?_⟩
        rw [hpr] at h
        exact absurd rfl h
      | vvec w =>
        have hEq : adjustParameters params errorMessage = params := by
          unfold adjustParameters
          simp [hci, hpr]
        rw [hEq]
        refine ⟨fun _ _ => rfl, fun h => ?_⟩
        rw [hpr] at h
        exact absurd rfl h

/-- A parameter dictionary with a negative radius and one unrelated key, for
the C9 witness. -/
def c9Params : Params :=
  paramsInsert (paramsInsert emptyParams "center" (Value.vpoint Point3d.origin))
    "radius" (Value.vdouble (-2))

/-- Witness for C9: repairing a negative radius leaves the `center` entry
unchanged, and the changed radius satisfies the clamping description. -/
theorem C9_adjust_parameters_frame_witness :
    (adjustParameters c9Params "Sphere radius must be positive" "center" =
      c9Params "center") ∧
    (strContainsCI "Sphere radius must be positive" "radius" = true ∧
      ∃ r : ℚ, c9Params "radius" = some (Value.vdouble r) ∧
        ((r ≤ 0 ∧ adjustParameters c9Params "Sphere radius must be positive" "radius" =
            some (Value.vdouble 1)) ∨
         (1000 < r ∧ adjustParameters c9Params "Sphere radius must be positive" "radius" =
            some (Value.vdouble 10)))) :=
  ⟨(C9_adjust_parameters_frame c9Params "Sphere radius must be positive").1 "center"
      (by decide),
   (C9_adjust_parameters_frame c9Params "Sphere radius must be positive").2 (by decide)⟩

/-- C1 counterexample: the utterance `hello` is classified with confidence
0 < 0.7, yet the pipeline run neither reaches `ProcessWithAI` (no `aiCall`
step) nor any provider: it goes directly to the fallback handler, refuting the
claim that low-confidence requests are routed to the AI Orchestrator first. -/
theorem C1_counterexample :
    (classifyIntent "hello" none).confidence < 7/10 ∧
    (processNaturalLanguage sampleEnv "hello" none).steps =
      [Step.classify, Step.fallbackLowConf] ∧
    Step.aiCall ∉ (processNaturalLanguage sampleEnv "hello" none).steps ∧
    (processNaturalLanguage sampleEnv "hello" none).result =
      handleLowConfidence "hello" (classifyIntent "hello" none) := by
  decide

/-- C1 (amended): every utterance whose classification confidence is strictly
below 0.7 is routed directly to the Fallback Handler's low-confidence path;
the AI Orchestrator (`ProcessWithAI`) is not invoked for such utterances. -/
theorem C1_low_confidence_goes_to_fallback (env : PipelineEnv) (input : String)
    (ctx : Option ConversationContext)
    (hnw : isNullOrWhiteSpace input = false)
    (hconf : (classifyIntent input ctx).confidence < 7/10) :
    processNaturalLanguage env input ctx =
      ⟨handleLowConfidence input (classifyIntent input ctx),
        [Step.classify, Step.fallbackLowConf], env.ai.cache⟩ ∧
    Step.aiCall ∉ (processNaturalLanguage env input ctx).steps := by
  have h1 : processNaturalLanguage env input ctx =
      ⟨handleLowConfidence input (classifyIntent input ctx),
        [Step.classify, Step.fallbackLowConf], env.ai.cache⟩ := by
    simp [processNaturalLanguage, hnw, hconf]
  refine ⟨h1, ?_⟩
  rw [h1]
  simp

/-- Witness for C1 (amended) at the utterance `hello`. -/
theorem C1_low_confidence_goes_to_fallback_witness :
    processNaturalLanguage sampleEnv "hello" none =
      ⟨handleLowConfidence "hello" (classifyIntent "hello" none),
        [Step.classify, Step.fallbackLowConf], sampleEnv.ai.cache⟩ ∧
    Step.aiCall ∉ (processNaturalLanguage sampleEnv "hello" none).steps :=
  C1_low_confidence_goes_to_fallback sampleEnv "hello" none (by decide) (by decide)

/-- The C2 utterance. -/
def utteranceC2 : String := "create a sphere with radius -2"

/-- The enhanced context produced for the C2 utterance from a fresh session. -/
def ectxC2 : ConversationContext := (enhanceContext [] utteranceC2 0 none).1

/-- C2 counterexample: for `create a sphere with radius -2` processed as a
CreateSphere direct command, validation returns Valid (not Invalid: the radius
regular expressions match only unsigned numerals, so no radius is extracted),
and the dispatch IS reached, refuting the claimed Error-without-dispatch. -/
theorem C2_counterexample :
    validateParameters (extractParameters utteranceC2 sphereTemplate (some ectxC2))
      sphereTemplate = ValidationResult.validR ∧
    Step.execute ∈ (processDirectCommand sampleGeom utteranceC2 sphereTemplate ectxC2).2 := by
  decide

/-- C2 (amended): for `create a sphere with radius -2` processed as a
CreateSphere direct command, no radius parameter is extracted (the extraction
patterns do not match negative numerals), validation returns Valid, the
pipeline proceeds to command dispatch, and with a succeeding geometry
collaborator the sphere is created with the default radius 1.0. -/
theorem C2_negative_radius_not_extracted :
    extractRadius utteranceC2 = none ∧
    (extractParameters utteranceC2 sphereTemplate (some ectxC2)) "radius" = none ∧
    validateParameters (extractParameters utteranceC2 sphereTemplate (some ectxC2))
      sphereTemplate = ValidationResult.validR ∧
    (processDirectCommand sampleGeom utteranceC2 sphereTemplate ectxC2).2 =
      [Step.extract, Step.validate, Step.execute] ∧
    (processDirectCommand sampleGeom utteranceC2 sphereTemplate ectxC2).1 =
      ProcessingResult.mkSuccess "Created sphere at 0,0,0 with radius 1.00" := by
  decide

/-- C3 counterexample: for the utterance `sphere` with a context whose recent
operation history is empty (so every category is absent from it), the claimed
formula gives `0.7 * (1/5) + 0.3 * 0 = 7/50`, but the code computes `17/100`:
the relevance scorer returns the constant `0.1` instead of `0` for categories
absent from the history. -/
theorem C3_counterexample :
    defaultContext.recentOperations = [] ∧
    calculateConfidence "sphere" createSpherePattern (some defaultContext) = 17/100 ∧
    (17 : ℚ)/100 ≠ 7/10 * (1/5) + 3/10 * 0 ∧
    (classifyIntent "sphere" (some defaultContext)).confidence = 17/100 := by
  refine ⟨rfl, by decide, by norm_num, by decide⟩

/-- C3 (amended): the confidence equals `0.7 * keyword_score + 0.3 *
context_score` where `context_score` is the constant `0.1` whenever a context
is supplied (regardless of the recent operation history; the relevance scorer
is a stub) and `0` when the context is null; and the classifier returns the
pattern with strictly highest confidence, ties resolved in favour of the
earlier-declared pattern, whenever the winning confidence is positive. -/
theorem C3_confidence_formula_and_first_argmax (input : String)
    (ctx : Option ConversationContext) :
    (∀ p ∈ intentPatterns, calculateConfidence input p ctx =
      7/10 * ((p.keywords.countP fun k => strContains input k : ℚ) /
        (p.keywords.length : ℚ)) +
      3/10 * (if ctx.isSome then (1 : ℚ)/10 else 0)) ∧
    ((calculateConfidence (strToLower input) createBoxPattern ctx ≤
        calculateConfidence (strToLower input) createSpherePattern ctx →
      calculateConfidence (strToLower input) modifyObjectPattern ctx ≤
        calculateConfidence (strToLower input) createSpherePattern ctx →
      0 < calculateConfidence (strToLower input) createSpherePattern ctx →
      classifyIntent input ctx = patternResult (strToLower input) createSpherePattern ctx) ∧
     (calculateConfidence (strToLower input) createSpherePattern ctx <
        calculateConfidence (strToLower input) createBoxPattern ctx →
      calculateConfidence (strToLower input) modifyObjectPattern ctx ≤
        calculateConfidence (strToLower input) createBoxPattern ctx →
      classifyIntent input ctx = patternResult (strToLower input) createBoxPattern ctx) ∧
     (calculateConfidence (strToLower input) createSpherePattern ctx <
        calculateConfidence (strToLower input) modifyObjectPattern ctx →
      calculateConfidence (strToLower input) createBoxPattern ctx <
        calculateConfidence (strToLower input) modifyObjectPattern ctx →
      classifyIntent input ctx = patternResult (strToLower input) modifyObjectPattern ctx)) := by
  constructor
  · intro p _hp
    unfold calculateConfidence
    cases ctx with
    | none =>
      simp only [Option.isSome_none, Bool.false_eq_true, if_false]
      ring
    | some c =>
      simp only [ConversationContext.getRelevanceScore, Option.isSome_some, if_true]
      ring
  · have hnn1 := calculateConfidence_nonneg (strToLower input) createSpherePattern ctx
    have hnn2 := calculateConfidence_nonneg (strToLower input) createBoxPattern ctx
    have hnn3 := calculateConfidence_nonneg (strToLower input) modifyObjectPattern ctx
    refine ⟨?_, ?_, ?_⟩
    · intro h1 h2 h3
      simp only [classifyIntent, intentPatterns, List.foldl, patternResult, initIntentResult]
      split_ifs <;> first | rfl | (exfalso; linarith)
    · intro h1 h2
      simp only [classifyIntent, intentPatterns, List.foldl, patternResult, initIntentResult]
      split_ifs <;> first | rfl | (exfalso; linarith) | (exfalso; simp_all; linarith) |
        (exfalso; simp_all)
    · intro h1 h2
      simp only [classifyIntent, intentPatterns, List.foldl, patternResult, initIntentResult]
      split_ifs <;> first | rfl | (exfalso; linarith) | (exfalso; simp_all; linarith) |
        (exfalso; simp_all)

/-- Witness for C3 (amended) at the utterance `sphere` with a fresh context:
the sphere pattern wins and its confidence follows the amended formula. -/
theorem C3_confidence_formula_and_first_argmax_witness :
    classifyIntent "sphere" (some defaultContext) =
      patternResult (strToLower "sphere") createSpherePattern (some defaultContext) ∧
    calculateConfidence "sphere" createSpherePattern (some defaultContext) =
      7/10 * ((createSpherePattern.keywords.countP fun k => strContains "sphere" k : ℚ) /
        (createSpherePattern.keywords.length : ℚ)) +
      3/10 * (if (some defaultContext).isSome then (1 : ℚ)/10 else 0) :=
  ⟨(C3_confidence_formula_and_first_argmax "sphere" (some defaultContext)).2.1
      (by decide) (by decide) (by decide),
   (C3_confidence_formula_and_first_argmax "sphere" (some defaultContext)).1
      createSpherePattern (by decide)⟩

/-- A stale cached result used by the C5 theorems. -/
def staleResult : ProcessingResult := ProcessingResult.mkSuccess "stale cached answer"

/-- The cache fingerprint of the C5 counterexample utterance. -/
def c5Key : String := generateCacheKey "draw something" none

/-- An AI environment holding an expired cache entry for `c5Key`, probed five
time units past the entry expiry, whose fresh processing yields no actions. -/
def c5Env : AIEnv :=
  ⟨[(some (Except.ok "reply"), "OpenAI")],
    fun _ => some ⟨[], some "no actions"⟩,
    fun _ => "",
    cacheInsert emptyCache c5Key ⟨staleResult, 0⟩,
    10⟩

/-- C5 counterexample: a lookup finding an expired entry does behave as a miss
(the stale value is not returned), but when the fresh processing yields a
Partial result the expired entry is neither evicted nor overwritten: it is
still in the cache after the call, refuting the eviction/overwrite clause. -/
theorem C5_counterexample :
    CachedResponse.isExpired ⟨staleResult, 0⟩ c5Env.now = true ∧
    processWithAI c5Env "draw something" none =
      Except.ok ⟨ProcessingResult.mkPartialK "no actions", c5Env.cache, false⟩ ∧
    c5Env.cache c5Key = some ⟨staleResult, 0⟩ ∧
    ProcessingResult.mkPartialK "no actions" ≠ staleResult := by
  refine ⟨by decide, ?_, by decide, by decide⟩
  rfl

/-- Helper: on the cache-miss path, the outcome never reports a cache hit, and
every entry of the outgoing cache either predates the call or is the freshly
inserted entry stamped with the fixed time-to-live. -/
theorem processWithAIMiss_cache_shape (env : AIEnv) (key : String) (out : AIOutcome)
    (h : processWithAIMiss env key = Except.ok out) :
    out.usedCache = false ∧
    (∀ k c, out.cache k = some c →
      env.cache k = some c ∨ (k = key ∧ c.expiryTime = env.now + cacheTTL)) := by
  unfold processWithAIMiss at h
  split at h
  · exact absurd h (by simp)
  · split at h
    · split at h
      · simp only [Except.ok.injEq] at h
        subst h
        refine ⟨rfl, fun k c hkc => ?_⟩
        simp only [cacheInsert] at hkc
        by_cases hk : k = key
        · rw [if_pos hk] at hkc
          simp only [Option.some.injEq] at hkc
          exact Or.inr ⟨hk, by rw [← hkc]⟩
        · rw [if_neg hk] at hkc
          exact Or.inl hkc
      · simp only [Except.ok.injEq] at h
        subst h
        exact ⟨rfl, fun k c hkc => Or.inl hkc⟩
    · simp only [Except.ok.injEq] at h
      subst h
      exact ⟨rfl, fun k c hkc => Or.inl hkc⟩

/-- C5 (amended): an expired cache entry behaves as a miss and its value is
never returned: a result served from the cache comes from an entry whose
expiry has not passed, and since every inserted entry carries expiry
`insertion time + 5`, a cached value is never served more than 5 minutes after
insertion. However, an expired entry is not necessarily evicted or
overwritten: the cache is only ever extended at the probed key, with a freshly
stamped entry, when processing produces a successful action result. -/
theorem C5_expired_entries_behave_as_miss (env : AIEnv) (input : String)
    (ctx : Option ConversationContext) (out : AIOutcome)
    (h : processWithAI env input ctx = Except.ok out) :
    (out.usedCache = true →
      ∃ c, env.cache (generateCacheKey input ctx) = some c ∧
        out.result = c.result ∧ env.now ≤ c.expiryTime) ∧
    (∀ k c, out.cache k = some c →
      env.cache k = some c ∨
        (k = generateCacheKey input ctx ∧ c.expiryTime = env.now + cacheTTL)) := by
  unfold processWithAI processWithAIAt at h
  split at h
  case _ cached hc =>
    by_cases hexp : cached.isExpired env.now = true
    · rw [if_neg (by simp [hexp])] at h
      have hm := processWithAIMiss_cache_shape env (generateCacheKey input ctx) out h
      refine ⟨fun hu => ?_, hm.2⟩
      rw [hm.1] at hu
      exact absurd hu (by simp)
    · rw [if_pos (by simpa using hexp)] at h
      simp only [Except.ok.injEq] at h
      subst h
      refine ⟨fun _ => ⟨cached, hc, rfl, ?_⟩, fun k c hkc => Or.inl hkc⟩
      simp only [CachedResponse.isExpired, decide_eq_true_eq] at hexp
      omega
  case _ hc =>
    have hm := processWithAIMiss_cache_shape env (generateCacheKey input ctx) out h
    refine ⟨fun hu => ?_, hm.2⟩
    rw [hm.1] at hu
    exact absurd hu (by simp)

/-- An AI environment with a live cache entry for the C5 witness. -/
def c5LiveEnv : AIEnv :=
  ⟨[], fun _ => none, fun _ => "",
    cacheInsert emptyCache (generateCacheKey "hi" none) ⟨staleResult, 7⟩, 3⟩

/-- Witness for C5 (amended): a live hit is served from an entry whose expiry
has not passed. -/
theorem C5_expired_entries_behave_as_miss_witness :
    ∃ c, c5LiveEnv.cache (generateCacheKey "hi" none) = some c ∧
      staleResult = c.result ∧ c5LiveEnv.now ≤ c.expiryTime :=
  (C5_expired_entries_behave_as_miss c5LiveEnv "hi" none
    ⟨staleResult, c5LiveEnv.cache, true⟩ rfl).1 rfl

/-- Helper: when every provider in the list fails (null delegate, exception, or
empty response), the provider loop tries them all in order and signals
exhaustion. -/
theorem tryGo_all_fail (ps : List ProviderEntry)
    (h : ∀ p ∈ ps, providerFails p = true) :
    ∀ acc, tryMultipleProvidersGo ps acc =
      (Except.error "All AI providers failed", acc ++ attemptedNames ps) := by
  induction ps with
  | nil => intro acc; simp [tryMultipleProvidersGo, attemptedNames]
  | cons p rest ih =>
    intro acc
    obtain ⟨o, name⟩ := p
    have hrest : ∀ q ∈ rest, providerFails q = true :=
      fun q hq => h q (List.mem_cons_of_mem _ hq)
    cases o with
    | none =>
      simp only [tryMultipleProvidersGo]
      rw [ih hrest acc]
      simp [attemptedNames]
    | some e =>
      cases e with
      | error msg =>
        simp only [tryMultipleProvidersGo]
        rw [ih hrest (acc ++ [name])]
        simp [attemptedNames]
      | ok s =>
        have hs : s = "" := by
          have := h (some (Except.ok s), name) (List.mem_cons_self _ _)
          simpa [providerFails] using this
        subst hs
        simp only [tryMultipleProvidersGo, if_pos rfl]
        rw [ih hrest (acc ++ [name])]
        simp [attemptedNames]

/-- Helper: the provider loop stops at the first provider returning a
non-empty response, returning its response; later providers are not tried. -/
theorem tryGo_first_success (ps qs : List ProviderEntry) (s name : String)
    (h : ∀ p ∈ ps, providerFails p = true) (hs : s ≠ "") :
    ∀ acc, tryMultipleProvidersGo (ps ++ (some (Except.ok s), name) :: qs) acc =
      (Except.ok s, acc ++ attemptedNames ps ++ [name]) := by
  induction ps with
  | nil =>
    intro acc
    simp [tryMultipleProvidersGo, attemptedNames, hs]
  | cons p rest ih =>
    intro acc
    obtain ⟨o, name2⟩ := p
    have hrest : ∀ q ∈ rest, providerFails q = true :=
      fun q hq => h q (List.mem_cons_of_mem _ hq)
    cases o with
    | none =>
      simp only [List.cons_append, tryMultipleProvidersGo, List.append_eq]
      rw [ih hrest acc]
      simp [attemptedNames]
    | some e =>
      cases e with
      | error msg =>
        simp only [List.cons_append, tryMultipleProvidersGo, List.append_eq]
        rw [ih hrest (acc ++ [name2])]
        simp [attemptedNames]
      | ok s2 =>
        have hs2 : s2 = "" := by
          have := h (some (Except.ok s2), name2) (List.mem_cons_self _ _)
          simpa [providerFails] using this
        subst hs2
        simp only [List.cons_append, tryMultipleProvidersGo, List.append_eq,
          if_pos rfl, if_true]
        rw [ih hrest (acc ++ [name2])]
        simp [attemptedNames]

/-- C6: the orchestrator calls the registered providers strictly in list
(priority) order, stopping at the first non-empty response; a null delegate,
an exception or an empty result moves to the next provider without aborting;
if every provider fails, the exhaustion error is signalled (the
`InvalidOperationException` of the source, propagated out of `ProcessWithAI`),
and the user-facing result produced for it by the fallback handler is an
Error, not a Partial. -/
theorem C6_provider_order_and_exhaustion (ps qs : List ProviderEntry)
    (s name : String) (hfail : ∀ p ∈ ps, providerFails p = true) :
    (s ≠ "" →
      tryMultipleProviders (ps ++ (some (Except.ok s), name) :: qs) =
        (Except.ok s, attemptedNames ps ++ [name])) ∧
    tryMultipleProviders ps =
      (Except.error "All AI providers failed", attemptedNames ps) ∧
    (∀ parse act cache now key,
      processWithAIMiss ⟨ps, parse, act, cache, now⟩ key =
        Except.error "All AI providers failed") ∧
    (handleException "All AI providers failed").type = ResultType.error ∧
    (handleException "All AI providers failed").type ≠ ResultType.partialK := by
  have hall : tryMultipleProviders ps =
      (Except.error "All AI providers failed", attemptedNames ps) := by
    have := tryGo_all_fail ps hfail []
    simpa [tryMultipleProviders] using this
  refine ⟨fun hs => ?_, hall, fun parse act cache now key => ?_, rfl, by decide⟩
  · have := tryGo_first_success ps qs s name hfail hs []
    simpa [tryMultipleProviders] using this
  · unfold processWithAIMiss
    rw [show tryMultipleProviders (AIEnv.mk ps parse act cache now).providers =
      (Except.error "All AI providers failed", attemptedNames ps) from hall]

/-- Providers that all fail, for the C6 witness: a null delegate, a throwing
provider and an empty-response provider. -/
def c6FailingProviders : List ProviderEntry :=
  [(none, "OpenAI"), (some (Except.error "timeout"), "Claude"),
    (some (Except.ok ""), "Empty")]

/-- Witness for C6: with all of `c6FailingProviders` failing, a later
non-empty provider is reached and its response returned; with no such
provider, exhaustion is signalled after trying every non-null provider. -/
theorem C6_provider_order_and_exhaustion_witness :
    tryMultipleProviders (c6FailingProviders ++ (some (Except.ok "answer"), "Backup") :: []) =
      (Except.ok "answer", attemptedNames c6FailingProviders ++ ["Backup"]) ∧
    tryMultipleProviders c6FailingProviders =
      (Except.error "All AI providers failed", attemptedNames c6FailingProviders) :=
  ⟨(C6_provider_order_and_exhaustion c6FailingProviders [] "answer" "Backup"
      (by decide)).1 (by decide),
   (C6_provider_order_and_exhaustion c6FailingProviders [] "answer" "Backup"
      (by decide)).2.1⟩

/-- C10: a CreateSphere execution whose radius parameter exceeds 1000 returns
a Warning immediately: no geometry is created and no `CreatedObject` is
recorded into the conversation context, even though the message says it is
continuing; and since a Warning counts as a successful `ProcessingResult`, the
retry loop stops after a single dispatch attempt. -/
theorem C10_large_radius_warning (geom : GeomOracle) (params : Params)
    (ctx : Option ConversationContext) (r : ℚ)
    (hr : params "radius" = some (Value.vdouble r)) (hlarge : 1000 < r) :
    createEnhancedSphere geom params ctx =
      (ProcessingResult.mkWarning
        ("Large sphere (radius: " ++ formatF2 r ++ "). Continuing..."), noEffects) ∧
    (createEnhancedSphere geom params ctx).1.isSuccess = true ∧
    executeWithRetry
        (fun _ p => DispatchOutcome.returns (executeRhinoCommand geom sphereTemplate p ctx).1)
        adjustParameters params 3 =
      ((createEnhancedSphere geom params ctx).1, ⟨1, [], []⟩) := by
  have hr0 : ¬ r ≤ 0 := by linarith
  have hge : getDouble params "radius" 1 = r := by
    unfold getDouble
    rw [hr]
  have h1 : createEnhancedSphere geom params ctx =
      (ProcessingResult.mkWarning
        ("Large sphere (radius: " ++ formatF2 r ++ "). Continuing..."), noEffects) := by
    unfold createEnhancedSphere
    rw [hge, if_neg hr0, if_pos hlarge]
  have h2 : preExecuteValidation sphereTemplate params ctx = ValidationResult.validR := by
    unfold preExecuteValidation validateParameters sphereTemplate validateSphereParameters
    rw [hr]
    simp [hr0, validateContextConstraints]
  have h3 : executeRhinoCommand geom sphereTemplate params ctx =
      createEnhancedSphere geom params ctx := by
    unfold executeRhinoCommand
    rw [h2]
    simp [ValidationResult.validR, sphereTemplate]
  refine ⟨h1, by rw [h1]; rfl, ?_⟩
  unfold executeWithRetry executeWithRetryGo
  rw [h3, h1]
  simp [ProcessingResult.mkWarning, h1, h3]

/-- A parameter dictionary with an oversized radius for the C10 witness. -/
def c10Params : Params := paramsInsert emptyParams "radius" (Value.vdouble 2000)

/-- Witness for C10 at radius 2000. -/
theorem C10_large_radius_warning_witness :
    createEnhancedSphere sampleGeom c10Params (some defaultContext) =
      (ProcessingResult.mkWarning
        ("Large sphere (radius: " ++ formatF2 2000 ++ "). Continuing..."), noEffects) ∧
    (createEnhancedSphere sampleGeom c10Params (some defaultContext)).1.isSuccess = true ∧
    executeWithRetry
        (fun _ p => DispatchOutcome.returns
          (executeRhinoCommand sampleGeom sphereTemplate p (some defaultContext)).1)
        adjustParameters c10Params 3 =
      ((createEnhancedSphere sampleGeom c10Params (some defaultContext)).1, ⟨1, [], []⟩) :=
  C10_large_radius_warning sampleGeom c10Params (some defaultContext) 2000
    (by decide) (by decide)

end RhinoAI
